import Mathlib

/-!
Verification of the ShakeFetch desktop application (`shakefetch.py`) against
its natural-language specification.  The Python source is shallowly embedded:
tkinter entry widgets become `String` fields of explicit state records, the
Python `dict` becomes an association list with in-place update (`dictSet`),
`json.dump`/`json.load` become an explicit JSON value tree (`JVal`), the OS
keyring becomes an association list keyed by (service, username), worker
threads become pure functions from an operation outcome to the list of
external calls made and the list of callbacks enqueued on the task queue.
-/

/-! ## Generic helpers: Python dict, substring test, lowercasing -/

/-- Python `d[k] = v` on a dict with unique keys: overwrite the existing
binding in place, otherwise append the new binding. -/
def dictSet {κ α : Type} [DecidableEq κ] (k : κ) (v : α) :
    List (κ × α) → List (κ × α)
  | [] => [(k, v)]
  | (k', v') :: t => if k' = k then (k, v) :: t else (k', v') :: dictSet k v t

/-- Python `d.get(k)` / `k in d`: first (hence, keys being unique, only)
binding of `k`. -/
def dictGet? {κ α : Type} [DecidableEq κ] (k : κ) :
    List (κ × α) → Option α
  | [] => none
  | (k', v') :: t => if k' = k then some v' else dictGet? k t

/-- Python `del d[k]` on a dict with unique keys (also
`keyring.delete_password` with the missing-entry error swallowed):
remove the binding of `k`, a no-op when there is none. -/
def dictDel {κ α : Type} [DecidableEq κ] (k : κ) :
    List (κ × α) → List (κ × α)
  | [] => []
  | (k', v') :: t => if k' = k then dictDel k t else (k', v') :: dictDel k t

theorem dictGet_dictSet_self {κ α : Type} [DecidableEq κ] (k : κ) (v : α)
    (l : List (κ × α)) : dictGet? k (dictSet k v l) = some v := by
  induction l with
  | nil => simp [dictSet, dictGet?]
  | cons hd t ih =>
    obtain ⟨k', v'⟩ := hd
    by_cases h : k' = k <;> simp [dictSet, dictGet?, h, ih]

theorem dictGet_dictSet_other {κ α : Type} [DecidableEq κ] {k k' : κ} (v : α)
    (l : List (κ × α)) (h : k' ≠ k) :
    dictGet? k' (dictSet k v l) = dictGet? k' l := by
  induction l with
  | nil => simp [dictSet, dictGet?, Ne.symm h]
  | cons hd t ih =>
    obtain ⟨k'', v''⟩ := hd
    by_cases h2 : k'' = k
    · subst h2
      simp [dictSet, dictGet?, h, Ne.symm h]
    · by_cases h3 : k'' = k' <;>
        simp [dictSet, dictGet?, h, Ne.symm h, h2, h3, ih]

theorem dictGet_dictDel_self {κ α : Type} [DecidableEq κ] (k : κ)
    (l : List (κ × α)) : dictGet? k (dictDel k l) = none := by
  induction l with
  | nil => simp [dictDel, dictGet?]
  | cons hd t ih =>
    obtain ⟨k', v'⟩ := hd
    by_cases h : k' = k <;> simp [dictDel, dictGet?, h, ih]

theorem dictGet_dictDel_other {κ α : Type} [DecidableEq κ] {k k' : κ}
    (l : List (κ × α)) (h : k' ≠ k) :
    dictGet? k' (dictDel k l) = dictGet? k' l := by
  induction l with
  | nil => simp [dictDel, dictGet?]
  | cons hd t ih =>
    obtain ⟨k'', v''⟩ := hd
    by_cases h2 : k'' = k
    · subst h2
      simp [dictDel, dictGet?, Ne.symm h, ih]
    · by_cases h3 : k'' = k' <;> simp [dictDel, dictGet?, h, h2, h3, ih]

/-- `sub` occurs as a contiguous substring of `l` (Python `sub in s`). -/
def hasSubList (l sub : List Char) : Bool :=
  match l with
  | [] => sub.isEmpty
  | _ :: t => sub.isPrefixOf l || hasSubList t sub

/-- Python `sub in s` for strings. -/
def strContainsSub (s sub : String) : Bool :=
  hasSubList s.toList sub.toList

/-- Python `s.lower()` (the source only ever lowercases ASCII). -/
def pyLower (s : String) : String :=
  String.mk (s.toList.map Char.toLower)

/-! ## JSON values

`json.dump` / `json.load` exchange a tree of JSON values; the profile file
only ever holds an object of objects of strings, so strings and objects
suffice. -/

inductive JVal : Type
  | jstr : String → JVal
  | jobj : List (String × JVal) → JVal

/-! ## The profile subsystem

State touched by `load_profiles`, `save_profile`, `delete_profile`,
`on_profile_select` and `update_all_fields` in `ShakeFetchApp`.  The
fourteen connection/fetch entry widgets are the `Fields` record. -/

def KEYRING_SERVICE : String := "ShakeFetch"

structure Fields : Type where
  ts_host : String
  ts_username : String
  da_host : String
  da_port : String
  da_net : String
  da_sta : String
  da_loc : String
  da_cha : String
  mf_host : String
  mf_port : String
  mf_net : String
  mf_sta : String
  mf_loc : String
  mf_cha : String
deriving DecidableEq

structure ProfileState : Type where
  /-- `self.profiles`: a dict mapping profile name to its JSON data. -/
  profiles : List (String × JVal)
  /-- Parsed content of `profiles.json`; `none` when the file is absent. -/
  fileJson : Option JVal
  /-- The OS keyring: (service, username) ↦ password. -/
  keyring : List ((String × String) × String)
  /-- The fourteen connection/fetch entry widgets. -/
  fields : Fields
  /-- `self.ts_password_entry`. -/
  password_entry : String
  /-- `self.profile_name_entry`. -/
  profile_name_entry : String
  /-- Current text of `self.profile_selector`. -/
  selector : String
  /-- The values list of `self.profile_selector`. -/
  selectorValues : List String
  /-- `self.remember_ssh_var`. -/
  remember : Bool

/-- The `profile_data` dict built by `save_profile` from the fourteen
entry widgets. -/
def gatherProfileData (f : Fields) : JVal :=
  .jobj [("ts_host", .jstr f.ts_host), ("ts_username", .jstr f.ts_username),
    ("da_host", .jstr f.da_host), ("da_port", .jstr f.da_port),
    ("da_net", .jstr f.da_net), ("da_sta", .jstr f.da_sta),
    ("da_loc", .jstr f.da_loc), ("da_cha", .jstr f.da_cha),
    ("mf_host", .jstr f.mf_host), ("mf_port", .jstr f.mf_port),
    ("mf_net", .jstr f.mf_net), ("mf_sta", .jstr f.mf_sta),
    ("mf_loc", .jstr f.mf_loc), ("mf_cha", .jstr f.mf_cha)]

/-- `data.get(key, default)` as used by `update_all_fields`: the entries
only ever hold strings (anything else would be coerced by tkinter, a case
the application never produces). -/
def jget (l : List (String × JVal)) (k dflt : String) : String :=
  match dictGet? k l with
  | some (.jstr s) => s
  | _ => dflt

/-- `ShakeFetchApp.update_all_fields`: overwrite every entry from the
profile data, falling back to the hard-coded defaults for missing keys.
`update_all_fields` is only ever called with a dict; on anything else the
Python would raise, rendered here as leaving the fields unchanged. -/
def update_all_fields (data : JVal) (f : Fields) : Fields :=
  match data with
  | .jobj l =>
    { ts_host := jget l "ts_host" "rs.local",
      ts_username := jget l "ts_username" "myshake",
      da_host := jget l "da_host" "rs.local",
      da_port := jget l "da_port" "16032",
      da_net := jget l "da_net" "AM",
      da_sta := jget l "da_sta" "R1E3F",
      da_loc := jget l "da_loc" "00",
      da_cha := jget l "da_cha" "EH*",
      mf_host := jget l "mf_host" "rs.local",
      mf_port := jget l "mf_port" "16032",
      mf_net := jget l "mf_net" "AM",
      mf_sta := jget l "mf_sta" "R1E3F",
      mf_loc := jget l "mf_loc" "00",
      mf_cha := jget l "mf_cha" "EH*" }
  | _ => f

/-- `ShakeFetchApp.load_profiles`: when `profiles.json` exists and parses
to a dict, replace `self.profiles` with it and refresh the selector's
values; when the file is absent nothing happens, and on a parse error
`self.profiles` is reset to `{}` (a case `Option JVal` does not need to
distinguish from absence for the claims, both leaving the previous file
untouched). -/
def load_profiles (s : ProfileState) : ProfileState :=
  match s.fileJson with
  | some (.jobj l) =>
    { s with profiles := l, selectorValues := l.map Prod.fst }
  | _ => s

/-- `ShakeFetchApp.save_profile`.  Empty profile name: error dialog, no
change.  Otherwise store the fourteen entry values under the name, handle
the keyring according to the Remember-SSH checkbox (store a non-empty
password when checked, delete any stored one when unchecked, a missing
entry being tolerated), rewrite `profiles.json` with the whole dict, and
refresh the selector. -/
def save_profile (s : ProfileState) : ProfileState :=
  let name := s.profile_name_entry
  if name = "" then s
  else
    let profiles1 := dictSet name (gatherProfileData s.fields) s.profiles
    let kr1 :=
      if s.remember then
        if s.password_entry ≠ "" then
          dictSet (KEYRING_SERVICE, name) s.password_entry s.keyring
        else s.keyring
      else dictDel (KEYRING_SERVICE, name) s.keyring
    { s with profiles := profiles1, keyring := kr1,
             fileJson := some (.jobj profiles1),
             selectorValues := profiles1.map Prod.fst,
             selector := name }

/-- `ShakeFetchApp.delete_profile` with the user's answer to the
confirmation dialog passed in.  Empty selection: error dialog, no change;
unconfirmed or unknown name: no change; otherwise remove the entry, the
keyring password (missing tolerated), rewrite the file and clear the
selector and name entry. -/
def delete_profile (confirm : Bool) (s : ProfileState) : ProfileState :=
  let name := s.selector
  if name = "" then s
  else if confirm then
    if (dictGet? name s.profiles).isSome then
      let profiles1 := dictDel name s.profiles
      { s with profiles := profiles1,
               keyring := dictDel (KEYRING_SERVICE, name) s.keyring,
               fileJson := some (.jobj profiles1),
               selectorValues := profiles1.map Prod.fst,
               selector := "", profile_name_entry := "" }
    else s
  else s

/-- `ShakeFetchApp.on_profile_select`: when the selected name is a known
profile, overwrite all fourteen fields from it and restore the password
entry from the keyring exactly when a non-empty password is stored
(`if password:` is Python truthiness: `None` and `""` both fail). -/
def on_profile_select (s : ProfileState) : ProfileState :=
  let name := s.selector
  match dictGet? name s.profiles with
  | some data =>
    let f1 := update_all_fields data s.fields
    let pw :=
      match dictGet? (KEYRING_SERVICE, name) s.keyring with
      | some p => if p ≠ "" then p else s.password_entry
      | none => s.password_entry
    { s with fields := f1, password_entry := pw }
  | none => s

/-! ## Claims C1 and C2: profile persistence and credential management -/

theorem update_all_fields_gather (f g : Fields) :
    update_all_fields (gatherProfileData f) g = f := rfl

/-- Concrete fourteen field values used by the witnesses. -/
def sampleFields : Fields :=
  { ts_host := "h1", ts_username := "u1", da_host := "h2", da_port := "16032",
    da_net := "AM", da_sta := "R1", da_loc := "00", da_cha := "EH*",
    mf_host := "h3", mf_port := "16033", mf_net := "AM", mf_sta := "R2",
    mf_loc := "01", mf_cha := "SH*" }

/-- Concrete application state used by the witnesses. -/
def sampleState : ProfileState :=
  { profiles := [("old", JVal.jstr "x")], fileJson := none,
    keyring := [(("ShakeFetch", "old"), "opw")], fields := sampleFields,
    password_entry := "secret", profile_name_entry := "site A",
    selector := "old", selectorValues := ["old"], remember := true }

/-- C1: profile persistence is a JSON-backed round trip.  For every
non-empty profile name, `save_profile` stores exactly the fourteen
connection/fetch field values under that name in the profiles map and
rewrites `profiles.json` with the whole map (other entries untouched);
reloading that file with `load_profiles` and selecting the profile
restores the same fourteen field values; `delete_profile` after user
confirmation removes exactly that entry and rewrites the file. -/
theorem profile_roundtrip (s t : ProfileState)
    (hname : s.profile_name_entry ≠ "") :
    dictGet? s.profile_name_entry (save_profile s).profiles
        = some (gatherProfileData s.fields) ∧
    (save_profile s).fileJson = some (.jobj (save_profile s).profiles) ∧
    (∀ n, n ≠ s.profile_name_entry →
      dictGet? n (save_profile s).profiles = dictGet? n s.profiles) ∧
    (on_profile_select
        { load_profiles { t with fileJson := (save_profile s).fileJson } with
          selector := s.profile_name_entry }).fields = s.fields ∧
    (dictGet? s.profile_name_entry
        (delete_profile true
          { save_profile s with selector := s.profile_name_entry }).profiles
        = none) ∧
    (∀ n, n ≠ s.profile_name_entry →
      dictGet? n (delete_profile true
          { save_profile s with selector := s.profile_name_entry }).profiles
        = dictGet? n (save_profile s).profiles) ∧
    (delete_profile true
        { save_profile s with selector := s.profile_name_entry }).fileJson
      = some (.jobj (delete_profile true
          { save_profile s with selector := s.profile_name_entry }).profiles) := by
  refine ⟨?_, ?_, ?_, ?_, ?_, ?_, ?_⟩
  · simp [save_profile, hname, dictGet_dictSet_self]
  · simp [save_profile, hname]
  · intro n hn
    simp [save_profile, hname, dictGet_dictSet_other _ _ hn]
  · simp [save_profile, hname, load_profiles, on_profile_select,
      dictGet_dictSet_self, update_all_fields_gather]
  · simp [delete_profile, save_profile, hname, dictGet_dictSet_self,
      dictGet_dictDel_self]
  · intro n hn
    simp [delete_profile, save_profile, hname, dictGet_dictSet_self,
      dictGet_dictDel_other _ hn]
  · simp [delete_profile, save_profile, hname, dictGet_dictSet_self]

theorem profile_roundtrip_witness :
    dictGet? "site A" (save_profile sampleState).profiles
        = some (gatherProfileData sampleState.fields) ∧
    (on_profile_select
        { load_profiles
            { sampleState with fileJson := (save_profile sampleState).fileJson }
          with selector := "site A" }).fields = sampleState.fields :=
  ⟨(profile_roundtrip sampleState sampleState (by decide)).1,
   (profile_roundtrip sampleState sampleState (by decide)).2.2.2.1⟩

/-- C2: credential management goes only through the OS keyring under
service name "ShakeFetch" keyed by profile name.  Saving with
Remember-SSH checked and a non-empty password stores the password in the
keyring; the rewritten `profiles.json` is independent of the password
entry (so the password is never written into it); saving with the box
unchecked removes any stored password for that profile (missing entries
tolerated, the statement holding for every keyring); selecting a profile
overwrites the password field only when a non-empty stored password
exists, and does overwrite it with the stored password whenever one
exists for a known profile. -/
theorem keyring_credentials (s : ProfileState) (p q : String)
    (hname : s.profile_name_entry ≠ "") :
    (s.remember = true → s.password_entry ≠ "" →
      dictGet? ("ShakeFetch", s.profile_name_entry)
        (save_profile s).keyring = some s.password_entry) ∧
    ((save_profile { s with password_entry := p }).fileJson
      = (save_profile { s with password_entry := q }).fileJson) ∧
    (s.remember = false →
      dictGet? ("ShakeFetch", s.profile_name_entry)
        (save_profile s).keyring = none) ∧
    ((on_profile_select s).password_entry ≠ s.password_entry →
      ∃ pw, dictGet? ("ShakeFetch", s.selector) s.keyring = some pw ∧
        pw ≠ "" ∧ (on_profile_select s).password_entry = pw) ∧
    (∀ pw, dictGet? ("ShakeFetch", s.selector) s.keyring = some pw →
      pw ≠ "" → (dictGet? s.selector s.profiles).isSome →
      (on_profile_select s).password_entry = pw) := by
  refine ⟨?_, ?_, ?_, ?_, ?_⟩
  · intro hrem hpw
    simp [save_profile, hname, hrem, hpw, KEYRING_SERVICE,
      dictGet_dictSet_self]
  · simp [save_profile, hname]
  · intro hrem
    simp [save_profile, hname, hrem, KEYRING_SERVICE, dictGet_dictDel_self]
  · intro hch
    unfold on_profile_select at *
    cases hdata : dictGet? s.selector s.profiles with
    | none => simp [hdata] at hch
    | some data =>
      simp only [hdata] at hch ⊢
      cases hpw : dictGet? (KEYRING_SERVICE, s.selector) s.keyring with
      | none => simp [hpw] at hch
      | some pw =>
        by_cases hne : pw = ""
        · simp [hpw, hne] at hch
        · exact ⟨pw, by simpa [KEYRING_SERVICE] using hpw, hne,
            by simp [hpw, hne]⟩
  · intro pw hpw hne hsome
    cases hdata : dictGet? s.selector s.profiles with
    | none => simp [hdata] at hsome
    | some data =>
      simp [on_profile_select, hdata, KEYRING_SERVICE, hpw, hne]

theorem keyring_credentials_witness :
    dictGet? ("ShakeFetch", "site A") (save_profile sampleState).keyring
        = some "secret" ∧
    (save_profile { sampleState with password_entry := "aa" }).fileJson
      = (save_profile { sampleState with password_entry := "bb" }).fileJson :=
  ⟨(keyring_credentials sampleState "aa" "bb" (by decide)).1 rfl (by decide),
   (keyring_credentials sampleState "aa" "bb" (by decide)).2.1⟩

/-! ## Date-time components, streams, fetch parameters

`datetime` / `UTCDateTime` values are carried around by their six
components; obspy `Stream` objects are opaque to this repository, so only
their length (`len(stream)`) and display string (`str(stream)`) are
modelled. -/

structure DT : Type where
  year : Nat
  month : Nat
  day : Nat
  hour : Nat
  minute : Nat
  second : Nat
deriving DecidableEq

structure ObsStream : Type where
  ntraces : Nat
  display : String
deriving DecidableEq

/-- Opaque result object returned by `process_mhvsr`. -/
structure HvsrResult : Type where
  tag : Nat
deriving DecidableEq

/-- The `params` dict assembled by `run_get_waveforms` / `run_multifetch`
and passed to `fetch_waveforms`. -/
structure FetchParams : Type where
  host : String
  port : Int
  net : String
  sta : String
  loc : String
  cha : String
  start_time : DT
  end_time : DT
deriving DecidableEq

/-- Outcome of a call into an external library: a returned value or a
raised exception (carried as its message). -/
inductive PyResult (α : Type) : Type
  | ok : α → PyResult α
  | exn : String → PyResult α
deriving DecidableEq

/-- The remote operations the workers delegate to `ShakeCommunicator` /
`fetch_waveforms`. -/
inductive RemoteOp : Type
  | connect
  | disconnect
  | setTimeUtc
  | fetchWaveforms (params : FetchParams)
deriving DecidableEq

/-- Callbacks placed on `self.task_queue` (a callable plus its
arguments). -/
inductive QueueMsg : Type
  | onConnectResult (r : String)
  | onDisconnectResult (r : String)
  | onSyncTimeResult (r : String)
  | handleErr (title msg : String)
  | updateDaOutput (t : String)
  | finishGetWaveforms (st : ObsStream)
  | updateMfOutput (t : String)
  | finishMultifetch (t : String)
  | onMhvsrComplete (h : HvsrResult)
deriving DecidableEq

/-- Whether a queued callback is the error handler `handle_error`. -/
def QueueMsg.isErrorHandler : QueueMsg → Bool
  | .handleErr _ _ => true
  | _ => false

/-! ## Python `int()` on a string: optional surrounding whitespace,
optional sign, decimal digits with single underscores allowed between
digits. -/

def digitsCore : Nat → List Char → Option Nat
  | acc, [] => some acc
  | acc, c :: t =>
    if c.isDigit then digitsCore (10 * acc + (c.toNat - 48)) t
    else if c = '_' then
      match t with
      | d :: t' =>
        if d.isDigit then digitsCore (10 * acc + (d.toNat - 48)) t' else none
      | [] => none
    else none

def pyInt? (s : String) : Option Int :=
  let l := s.toList.dropWhile Char.isWhitespace
  let l := (l.reverse.dropWhile Char.isWhitespace).reverse
  match l with
  | '+' :: c :: t =>
    if c.isDigit then (digitsCore 0 (c :: t)).map Int.ofNat else none
  | '-' :: c :: t =>
    if c.isDigit then (digitsCore 0 (c :: t)).map (fun n => -(n : Int))
    else none
  | c :: t =>
    if c.isDigit then (digitsCore 0 (c :: t)).map Int.ofNat else none
  | [] => none

/-! ## The four background workers (claim C3)

Each worker is a pure function from the outcome of its single external
call to the pair (external calls made, callbacks enqueued).  The `try`
body makes the call once; the `except` branch enqueues `handle_error`
once and falls off the end of the function. -/

def connect_worker (outcome : PyResult String) :
    List RemoteOp × List QueueMsg :=
  ([.connect],
    match outcome with
    | .ok r => [.onConnectResult r]
    | .exn e => [.handleErr "Connection Error" e])

def disconnect_worker (outcome : PyResult String) :
    List RemoteOp × List QueueMsg :=
  ([.disconnect],
    match outcome with
    | .ok r => [.onDisconnectResult r]
    | .exn e => [.handleErr "Disconnect Error" e])

def sync_time_worker (outcome : PyResult String) :
    List RemoteOp × List QueueMsg :=
  ([.setTimeUtc],
    match outcome with
    | .ok r => [.onSyncTimeResult r]
    | .exn e => [.handleErr "Time Sync Error" e])

/-- `get_waveforms_worker`: inside the `try`, first a progress message is
enqueued, then `fetch_waveforms` is called once, and its result (or the
error handler) is enqueued. -/
def get_waveforms_worker (params : FetchParams)
    (outcome : PyResult ObsStream) : List RemoteOp × List QueueMsg :=
  ([.fetchWaveforms params],
    .updateDaOutput ("Fetching waveforms for " ++ params.net ++ "." ++
        params.sta ++ "." ++ params.loc ++ "." ++ params.cha ++ "...\n") ::
      match outcome with
      | .ok st => [.finishGetWaveforms st]
      | .exn e => [.handleErr "Waveform Fetch Error" e])

/-- C3: the SSH time-sync and waveform-fetch workflow is retry-free.
Each worker makes its remote call exactly once per invocation (one button
press starts one worker), and on an exception enqueues exactly one
error-handling callback — the call list still has length one, so no
second attempt is made. -/
theorem workers_retry_free (r e : String) (params : FetchParams)
    (st : ObsStream) :
    (connect_worker (.ok r)).1 = [.connect] ∧
    (connect_worker (.exn e)).1 = [.connect] ∧
    (connect_worker (.exn e)).2 = [.handleErr "Connection Error" e] ∧
    (disconnect_worker (.ok r)).1 = [.disconnect] ∧
    (disconnect_worker (.exn e)).1 = [.disconnect] ∧
    (disconnect_worker (.exn e)).2 = [.handleErr "Disconnect Error" e] ∧
    (sync_time_worker (.ok r)).1 = [.setTimeUtc] ∧
    (sync_time_worker (.exn e)).1 = [.setTimeUtc] ∧
    (sync_time_worker (.exn e)).2 = [.handleErr "Time Sync Error" e] ∧
    (get_waveforms_worker params (.ok st)).1 = [.fetchWaveforms params] ∧
    (get_waveforms_worker params (.exn e)).1 = [.fetchWaveforms params] ∧
    ((get_waveforms_worker params (.exn e)).2.filter
        QueueMsg.isErrorHandler).length = 1 ∧
    ((get_waveforms_worker params (.ok st)).2.filter
        QueueMsg.isErrorHandler).length = 0 ∧
    ((connect_worker (.exn e)).2.filter QueueMsg.isErrorHandler).length = 1 ∧
    ((disconnect_worker (.exn e)).2.filter
        QueueMsg.isErrorHandler).length = 1 ∧
    ((sync_time_worker (.exn e)).2.filter QueueMsg.isErrorHandler).length = 1 := by
  refine ⟨rfl, rfl, rfl, rfl, rfl, rfl, rfl, rfl, rfl, rfl, rfl, ?_, ?_, ?_,
    ?_, ?_⟩ <;>
    simp [connect_worker, disconnect_worker, sync_time_worker,
      get_waveforms_worker, QueueMsg.isErrorHandler]

/-! ## Date formatting and `datetime.strptime` (claims C6, C8)

`DateTimePicker.on_done` writes
`f"{y:04d}-{m:02d}-{d:02d}T{H:02d}:{M:02d}:{S:02d}"`; the constructor
parses the entry back with `datetime.strptime(s, "%Y-%m-%dT%H:%M:%S")`.
CPython compiles each directive to a regex fragment — `%Y` four digits,
`%m` `1[0-2]|0[1-9]|[1-9]`, `%d` `3[01]|[12]\d|0[1-9]|[1-9]| [1-9]`
(the last alternative a space-padded single digit), `%H`
`2[0-3]|[0-1]\d|\d`, `%M` `[0-5]\d|\d`, `%S` `6[0-1]|[0-5]\d|\d` — joins
them with the format's literal characters under `re.IGNORECASE` (so the
literal `T` also matches `t`), anchors the match at the start and rejects
unconverted trailing data, and the `datetime` constructor then rejects
year 0, days past the month's end and leap seconds with the same
`ValueError` the `except` catches. -/

/-- `%02d` for the two-digit values the picker and `strftime` emit
(all at most 99). -/
def pad2 (n : Nat) : List Char :=
  [Nat.digitChar (n / 10), Nat.digitChar (n % 10)]

/-- `%04d` for the year (the picker offers 1970–2100, at most four
digits). -/
def pad4 (n : Nat) : List Char :=
  [Nat.digitChar (n / 1000 % 10), Nat.digitChar (n / 100 % 10),
   Nat.digitChar (n / 10 % 10), Nat.digitChar (n % 10)]

/-- The string `DateTimePicker.on_done` writes into the entry widget. -/
def on_done (d : DT) : String :=
  String.mk (pad4 d.year ++ '-' :: pad2 d.month ++ '-' :: pad2 d.day ++
    'T' :: pad2 d.hour ++ ':' :: pad2 d.minute ++ ':' :: pad2 d.second)

/-- `strftime('%Y%m%dT%H%M%S')`, used for the multifetch filenames. -/
def fmtCompactDT (d : DT) : String :=
  String.mk (pad4 d.year ++ pad2 d.month ++ pad2 d.day ++
    'T' :: pad2 d.hour ++ pad2 d.minute ++ pad2 d.second)

def digit? (c : Char) : Option Nat :=
  if c.isDigit then some (c.toNat - 48) else none

/-- `%Y`: exactly four digits. -/
def parseY : List Char → Option (Nat × List Char)
  | c1 :: c2 :: c3 :: c4 :: rest =>
    match digit? c1, digit? c2, digit? c3, digit? c4 with
    | some a, some b, some c, some d =>
      some (1000 * a + 100 * b + 10 * c + d, rest)
    | _, _, _, _ => none
  | _ => none

/-- A two-digit-preferring directive: try the two-digit alternatives
(charactarised by `cond2` on the two digit values), then the one-digit
alternative (`single`), exactly like the regex alternation. -/
def parse2or1 (cond2 : Nat → Nat → Bool) (single : Nat → Bool) :
    List Char → Option (Nat × List Char)
  | [] => none
  | c1 :: rest =>
    match digit? c1 with
    | none => none
    | some a =>
      match rest with
      | c2 :: rest2 =>
        match digit? c2 with
        | some b =>
          if cond2 a b then some (10 * a + b, rest2)
          else if single a then some (a, rest) else none
        | none => if single a then some (a, rest) else none
      | [] => if single a then some (a, []) else none

def parseMonth : List Char → Option (Nat × List Char) :=
  parse2or1 (fun a b => decide ((a = 1 ∧ b ≤ 2) ∨ (a = 0 ∧ 1 ≤ b)))
    (fun a => decide (1 ≤ a))

/-- `%d`: the digit-leading alternatives, or the space-padded single
digit ` [1-9]` (a leading space excludes the digit-leading alternatives,
so dispatching on the first character matches the regex alternation). -/
def parseDay : List Char → Option (Nat × List Char)
  | [] => none
  | c1 :: rest =>
    if c1 = ' ' then
      match rest with
      | c2 :: rest2 =>
        match digit? c2 with
        | some b => if 1 ≤ b then some (b, rest2) else none
        | none => none
      | [] => none
    else
      parse2or1
        (fun a b =>
          decide ((a = 3 ∧ b ≤ 1) ∨ a = 1 ∨ a = 2 ∨ (a = 0 ∧ 1 ≤ b)))
        (fun a => decide (1 ≤ a)) (c1 :: rest)

def parseHour : List Char → Option (Nat × List Char) :=
  parse2or1 (fun a b => decide ((a = 2 ∧ b ≤ 3) ∨ a ≤ 1)) (fun _ => true)

def parseMin : List Char → Option (Nat × List Char) :=
  parse2or1 (fun a _ => decide (a ≤ 5)) (fun _ => true)

def parseSec : List Char → Option (Nat × List Char) :=
  parse2or1 (fun a b => decide ((a = 6 ∧ b ≤ 1) ∨ a ≤ 5)) (fun _ => true)

/-- A literal character of the format string: the pattern is compiled
with `re.IGNORECASE`, so the literal matches both cases (among the
literals `-`, `:`, `T` only `T` has two). -/
def expectCh (c : Char) : List Char → Option (List Char)
  | x :: r => if x.toLower = c.toLower then some r else none
  | [] => none

def isLeap (y : Nat) : Bool :=
  y % 4 = 0 && (y % 100 ≠ 0 || y % 400 = 0)

def daysInMonth (y m : Nat) : Nat :=
  if m = 2 then (if isLeap y then 29 else 28)
  else if m = 4 ∨ m = 6 ∨ m = 9 ∨ m = 11 then 30
  else 31

/-- `datetime.strptime(s, "%Y-%m-%dT%H:%M:%S")`, `ValueError` as `none`:
the regex match followed by the `datetime` constructor's range checks. -/
def strptimeISO (s : String) : Option DT :=
  (parseY s.toList).bind fun (y, r1) =>
  (expectCh '-' r1).bind fun r2 =>
  (parseMonth r2).bind fun (m, r3) =>
  (expectCh '-' r3).bind fun r4 =>
  (parseDay r4).bind fun (d, r5) =>
  (expectCh 'T' r5).bind fun r6 =>
  (parseHour r6).bind fun (h, r7) =>
  (expectCh ':' r7).bind fun r8 =>
  (parseMin r8).bind fun (mi, r9) =>
  (expectCh ':' r9).bind fun r10 =>
  (parseSec r10).bind fun (sec, r11) =>
  if r11 = [] ∧ 1 ≤ y ∧ d ≤ daysInMonth y m ∧ sec ≤ 59 then
    some ⟨y, m, d, h, mi, sec⟩
  else none

/-- `DateTimePicker.__init__`: start from the current UTC time, replace
it by the parsed entry text when `strptime` succeeds (the `except
ValueError: pass` fallback). -/
def DateTimePicker_init (entry : String) (now : DT) : DT :=
  (strptimeISO entry).getD now

theorem toList_mk (l : List Char) : (String.mk l).toList = l := rfl

theorem digit?_digitChar (x : Nat) (h : x < 10) :
    digit? (Nat.digitChar x) = some x := by
  interval_cases x <;> decide

theorem parseY_pad4 (y : Nat) (rest : List Char) (h : y ≤ 9999) :
    parseY (pad4 y ++ rest) = some (y, rest) := by
  have h1 : y / 1000 % 10 < 10 := Nat.mod_lt _ (by norm_num)
  have h2 : y / 100 % 10 < 10 := Nat.mod_lt _ (by norm_num)
  have h3 : y / 10 % 10 < 10 := Nat.mod_lt _ (by norm_num)
  have h4 : y % 10 < 10 := Nat.mod_lt _ (by norm_num)
  simp [pad4, parseY, digit?_digitChar _ h1, digit?_digitChar _ h2,
    digit?_digitChar _ h3, digit?_digitChar _ h4]
  omega

theorem parse2or1_pad2 (cond2 : Nat → Nat → Bool) (single : Nat → Bool)
    (n : Nat) (rest : List Char) (h : n ≤ 99)
    (hc : cond2 (n / 10) (n % 10) = true) :
    parse2or1 cond2 single (pad2 n ++ rest) = some (n, rest) := by
  have h1 : n / 10 < 10 := by omega
  have h2 : n % 10 < 10 := by omega
  simp [pad2, parse2or1, digit?_digitChar _ h1, digit?_digitChar _ h2, hc]
  omega

theorem parseMonth_pad2 (n : Nat) (rest : List Char) (h1 : 1 ≤ n)
    (h2 : n ≤ 12) : parseMonth (pad2 n ++ rest) = some (n, rest) :=
  parse2or1_pad2 _ _ n rest (by omega)
    (by simp only [decide_eq_true_eq]; omega)

theorem digitChar_ne_space (x : Nat) (h : x < 10) :
    Nat.digitChar x ≠ ' ' := by
  interval_cases x <;> decide

theorem parseDay_pad2 (n : Nat) (rest : List Char) (h1 : 1 ≤ n)
    (h2 : n ≤ 31) : parseDay (pad2 n ++ rest) = some (n, rest) := by
  have h10 : n / 10 < 10 := by omega
  have hne : Nat.digitChar (n / 10) ≠ ' ' := digitChar_ne_space _ h10
  have h := parse2or1_pad2
    (fun a b => decide ((a = 3 ∧ b ≤ 1) ∨ a = 1 ∨ a = 2 ∨ (a = 0 ∧ 1 ≤ b)))
    (fun a => decide (1 ≤ a)) n rest (by omega)
    (by simp only [decide_eq_true_eq]; omega)
  simpa [pad2, parseDay, hne] using h

theorem expectCh_self (c : Char) (r : List Char) :
    expectCh c (c :: r) = some r := by
  simp [expectCh]

theorem parseHour_pad2 (n : Nat) (rest : List Char) (h : n ≤ 23) :
    parseHour (pad2 n ++ rest) = some (n, rest) :=
  parse2or1_pad2 _ _ n rest (by omega)
    (by simp only [decide_eq_true_eq]; omega)

theorem parseMin_pad2 (n : Nat) (rest : List Char) (h : n ≤ 59) :
    parseMin (pad2 n ++ rest) = some (n, rest) :=
  parse2or1_pad2 _ _ n rest (by omega)
    (by simp only [decide_eq_true_eq]; omega)

theorem parseSec_pad2 (n : Nat) (rest : List Char) (h : n ≤ 59) :
    parseSec (pad2 n ++ rest) = some (n, rest) :=
  parse2or1_pad2 _ _ n rest (by omega)
    (by simp only [decide_eq_true_eq]; omega)

/-- C8: DateTimePicker round trip.  For every date/time whose components
form a valid calendar date within the spinbox ranges (year 1970-2100,
hour 0-23, minute/second 0-59), the zero-padded string written by
`on_done` is parsed back by the picker's constructor into the same six
components; and for any entry text the `strptime` model rejects (wrong
format or an invalid calendar date such as February 31), the constructor
silently falls back to the current UTC time. -/
theorem picker_roundtrip (d : DT)
    (hy1 : 1970 ≤ d.year) (hy2 : d.year ≤ 2100)
    (hm1 : 1 ≤ d.month) (hm2 : d.month ≤ 12)
    (hd1 : 1 ≤ d.day) (hd2 : d.day ≤ daysInMonth d.year d.month)
    (hh : d.hour ≤ 23) (hmin : d.minute ≤ 59) (hs : d.second ≤ 59) :
    strptimeISO (on_done d) = some d ∧
    (∀ s now, strptimeISO s = none → DateTimePicker_init s now = now) := by
  have hd31 : d.day ≤ 31 := by
    have : daysInMonth d.year d.month ≤ 31 := by
      unfold daysInMonth
      split <;> [split <;> omega; (split <;> omega)]
    omega
  have hsec : parseSec (pad2 d.second) = some (d.second, []) := by
    simpa using parseSec_pad2 d.second [] hs
  have hy0 : 1 ≤ d.year := by omega
  constructor
  · simp [strptimeISO, on_done, toList_mk,
      parseY_pad4 _ _ (by omega : d.year ≤ 9999),
      parseMonth_pad2 _ _ hm1 hm2, parseDay_pad2 _ _ hd1 hd31,
      parseHour_pad2 _ _ hh, parseMin_pad2 _ _ hmin, hsec,
      expectCh_self, hd2, hs, hy0]
  · intro s now h
    simp [DateTimePicker_init, h]

theorem picker_roundtrip_witness :
    strptimeISO (on_done ⟨2024, 2, 29, 23, 59, 58⟩)
        = some ⟨2024, 2, 29, 23, 59, 58⟩ ∧
    DateTimePicker_init "2024-02-31T00:00:00" ⟨2025, 1, 1, 0, 0, 0⟩
        = ⟨2025, 1, 1, 0, 0, 0⟩ ∧
    strptimeISO "2024-01-01t00:00:00" = some ⟨2024, 1, 1, 0, 0, 0⟩ ∧
    strptimeISO "2024-01- 1T00:00:00" = some ⟨2024, 1, 1, 0, 0, 0⟩ :=
  ⟨(picker_roundtrip ⟨2024, 2, 29, 23, 59, 58⟩ (by decide) (by decide)
      (by decide) (by decide) (by decide) (by decide) (by decide)
      (by decide) (by decide)).1,
   (picker_roundtrip ⟨2024, 2, 29, 23, 59, 58⟩ (by decide) (by decide)
      (by decide) (by decide) (by decide) (by decide) (by decide)
      (by decide) (by decide)).2 "2024-02-31T00:00:00" ⟨2025, 1, 1, 0, 0, 0⟩
      (by decide),
   by decide, by decide⟩

/-! ## Widget states and `handle_error` (claims C5, C10) -/

/-- Enabled/disabled state of every button `handle_error` could touch,
the time-sync status label, and the error dialogs shown. -/
structure Widgets : Type where
  connect_button : Bool
  sync_time_button : Bool
  disconnect_button : Bool
  get_waveforms_button : Bool
  plot_waveforms_button : Bool
  mf_fetch_all_button : Bool
  run_mhvsr_button : Bool
  plot_mhvsr_button : Bool
  save_mhvsr_button : Bool
  /-- `ts_status_label`: status word and colour set by `update_ts_status`. -/
  ts_status : String × String
  /-- Titles of the `messagebox.showerror` dialogs shown so far. -/
  dialogs : List String
deriving DecidableEq

/-- `ShakeFetchApp.handle_error`: show the dialog, re-enable the MHVSR
button unconditionally, then dispatch on the error title. -/
def handle_error (title err : String) (w : Widgets) : Widgets :=
  let w1 := { w with dialogs := w.dialogs ++ [title ++ ": " ++ err],
                     run_mhvsr_button := true }
  if title = "Connection Error" then
    { w1 with connect_button := true, ts_status := ("Failed", "red") }
  else if title = "Disconnect Error" then
    { w1 with connect_button := true, ts_status := ("Disconnected", "red") }
  else if title = "Time Sync Error" then
    { w1 with sync_time_button := true, ts_status := ("Error", "red") }
  else if title = "Waveform Fetch Error" then
    { w1 with get_waveforms_button := true }
  else w1

/-- C10: every error routed through `handle_error` re-enables the Run
MHVSR Analysis button; beyond that only the widgets matching the error
title change (Connect button and time-sync status for "Connection Error"
and "Disconnect Error", Sync Time button and status for "Time Sync
Error", Get Waveforms button for "Waveform Fetch Error"), and all other
widget states are left unchanged (an unrecognised title changes nothing
else at all). -/
theorem handle_error_frame (title err : String) (w : Widgets) :
    (handle_error title err w).run_mhvsr_button = true ∧
    (handle_error title err w).disconnect_button = w.disconnect_button ∧
    (handle_error title err w).plot_waveforms_button
      = w.plot_waveforms_button ∧
    (handle_error title err w).mf_fetch_all_button = w.mf_fetch_all_button ∧
    (handle_error title err w).plot_mhvsr_button = w.plot_mhvsr_button ∧
    (handle_error title err w).save_mhvsr_button = w.save_mhvsr_button ∧
    (title = "Connection Error" →
      (handle_error title err w).connect_button = true ∧
      (handle_error title err w).ts_status = ("Failed", "red") ∧
      (handle_error title err w).sync_time_button = w.sync_time_button ∧
      (handle_error title err w).get_waveforms_button
        = w.get_waveforms_button) ∧
    (title = "Disconnect Error" →
      (handle_error title err w).connect_button = true ∧
      (handle_error title err w).ts_status = ("Disconnected", "red") ∧
      (handle_error title err w).sync_time_button = w.sync_time_button ∧
      (handle_error title err w).get_waveforms_button
        = w.get_waveforms_button) ∧
    (title = "Time Sync Error" →
      (handle_error title err w).sync_time_button = true ∧
      (handle_error title err w).ts_status = ("Error", "red") ∧
      (handle_error title err w).connect_button = w.connect_button ∧
      (handle_error title err w).get_waveforms_button
        = w.get_waveforms_button) ∧
    (title = "Waveform Fetch Error" →
      (handle_error title err w).get_waveforms_button = true ∧
      (handle_error title err w).connect_button = w.connect_button ∧
      (handle_error title err w).sync_time_button = w.sync_time_button ∧
      (handle_error title err w).ts_status = w.ts_status) ∧
    (title ≠ "Connection Error" → title ≠ "Disconnect Error" →
      title ≠ "Time Sync Error" → title ≠ "Waveform Fetch Error" →
      (handle_error title err w)
        = { w with dialogs := w.dialogs ++ [title ++ ": " ++ err],
                   run_mhvsr_button := true }) := by
  by_cases h1 : title = "Connection Error" <;>
    by_cases h2 : title = "Disconnect Error" <;>
      by_cases h3 : title = "Time Sync Error" <;>
        by_cases h4 : title = "Waveform Fetch Error" <;>
          simp_all [handle_error]

def sampleDT : DT := ⟨2025, 3, 14, 15, 9, 26⟩

def sampleParams : FetchParams :=
  { host := "rs.local", port := 16032, net := "AM", sta := "R1E3F",
    loc := "00", cha := "EH*", start_time := sampleDT,
    end_time := ⟨2025, 3, 14, 15, 10, 26⟩ }

def sampleStream : ObsStream := { ntraces := 3, display := "3 Trace(s)" }

def sampleWidgets : Widgets :=
  { connect_button := false, sync_time_button := true,
    disconnect_button := true, get_waveforms_button := true,
    plot_waveforms_button := true, mf_fetch_all_button := true,
    run_mhvsr_button := false, plot_mhvsr_button := false,
    save_mhvsr_button := false, ts_status := ("Connected", "green"),
    dialogs := [] }

theorem workers_retry_free_witness :
    (connect_worker (.exn "boom")).1 = [.connect] ∧
    ((get_waveforms_worker sampleParams (.exn "boom")).2.filter
        QueueMsg.isErrorHandler).length = 1 :=
  ⟨(workers_retry_free "r" "boom" sampleParams sampleStream).2.1,
   (workers_retry_free "r" "boom" sampleParams sampleStream).2.2.2.2.2.2.2.2.2.2.2.1⟩

theorem handle_error_frame_witness :
    (handle_error "Connection Error" "boom" sampleWidgets).run_mhvsr_button
        = true ∧
    (handle_error "Connection Error" "boom" sampleWidgets).connect_button
        = true :=
  ⟨(handle_error_frame "Connection Error" "boom" sampleWidgets).1,
   ((handle_error_frame "Connection Error" "boom" sampleWidgets).2.2.2.2.2.2.1
      rfl).1⟩

/-! ## The Shake Connection tab as a sequential event machine (claim C5)

Because all GUI callbacks run on the tkinter thread and every worker
completion is serialised through `task_queue`, the workflow is the
sequential machine below: each event is one button press together with
the outcome of the remote call its worker makes.  A disabled tkinter
button cannot fire, so a press on a disabled button leaves the state
unchanged and performs no call. -/

structure TsState : Type where
  widgets : Widgets
  /-- `self.shake_communicator`: (host, username, password). -/
  communicator : Option (String × String × String)
deriving DecidableEq

/-- The state after `ShakeFetchApp.__init__` / `create_time_sync_tab`:
Connect enabled, Sync Time and Disconnect disabled, no communicator. -/
def tsInit : TsState :=
  { widgets :=
      { connect_button := true, sync_time_button := false,
        disconnect_button := false, get_waveforms_button := true,
        plot_waveforms_button := true, mf_fetch_all_button := true,
        run_mhvsr_button := true, plot_mhvsr_button := false,
        save_mhvsr_button := false, ts_status := ("Idle", ""),
        dialogs := [] },
    communicator := none }

inductive TsEvent : Type
  | pressConnect (host user pass : String) (outcome : PyResult String)
  | pressDisconnect (outcome : PyResult String)
  | pressSyncTime (outcome : PyResult String)
deriving DecidableEq

/-- One event: the button-press handler, the worker's single remote call,
and the queued completion callback, in source order
(`run_connect`/`connect_worker`/`on_connect_result` and so on). -/
def tsStep (s : TsState) (e : TsEvent) : TsState × List RemoteOp :=
  match e with
  | .pressConnect host user pass outcome =>
    if s.widgets.connect_button = false then (s, [])
    else if host = "" ∨ user = "" ∨ pass = "" then
      ({ s with widgets :=
          { s.widgets with
            dialogs := s.widgets.dialogs ++ ["Input Error"] } }, [])
    else
      let s1 : TsState :=
        { communicator := some (host, user, pass),
          widgets :=
            { s.widgets with
              connect_button := false,
              ts_status := ("Connecting...", "blue") } }
      match outcome with
      | .ok r =>
        if strContainsSub (pyLower r) "successful" then
          ({ s1 with widgets :=
              { s1.widgets with
                ts_status := ("Connected", "green"),
                sync_time_button := true,
                disconnect_button := true,
                connect_button := false } }, [.connect])
        else
          ({ s1 with
             communicator := none,
             widgets :=
               { s1.widgets with
                 ts_status := ("Failed", "red"),
                 connect_button := true } }, [.connect])
      | .exn e =>
        ({ s1 with widgets := handle_error "Connection Error" e s1.widgets },
         [.connect])
  | .pressDisconnect outcome =>
    if s.widgets.disconnect_button = false then (s, [])
    else
      let s1 : TsState :=
        { s with widgets :=
            { s.widgets with
              disconnect_button := false,
              sync_time_button := false,
              ts_status := ("Disconnecting...", "blue") } }
      match outcome with
      | .ok _ =>
        ({ s1 with
           communicator := none,
           widgets :=
             { s1.widgets with
               ts_status := ("Disconnected", "red"),
               connect_button := true,
               sync_time_button := false,
               disconnect_button := false } }, [.disconnect])
      | .exn e =>
        ({ s1 with widgets := handle_error "Disconnect Error" e s1.widgets },
         [.disconnect])
  | .pressSyncTime outcome =>
    if s.widgets.sync_time_button = false then (s, [])
    else
      let s1 : TsState :=
        { s with widgets :=
            { s.widgets with
              sync_time_button := false,
              ts_status := ("Syncing time...", "blue") } }
      match outcome with
      | .ok r =>
        ({ s1 with widgets :=
            { s1.widgets with
              sync_time_button := true,
              ts_status :=
                if strContainsSub r "Error" then ("Error", "red")
                else ("Connected", "green") } }, [.setTimeUtc])
      | .exn e =>
        ({ s1 with widgets := handle_error "Time Sync Error" e s1.widgets },
         [.setTimeUtc])

def tsRun (evs : List TsEvent) : TsState :=
  evs.foldl (fun s e => (tsStep s e).1) tsInit

/-- The inductive invariant behind C5: Sync Time enabled implies a live
communicator, and Connect enabled implies Sync Time and Disconnect
disabled. -/
def TsInv (s : TsState) : Prop :=
  (s.widgets.sync_time_button = true → s.communicator ≠ none) ∧
  (s.widgets.connect_button = true →
    s.widgets.sync_time_button = false ∧
    s.widgets.disconnect_button = false)

theorem tsStep_preserves_inv (s : TsState) (e : TsEvent) (h : TsInv s) :
    TsInv (tsStep s e).1 := by
  obtain ⟨h1, h2⟩ := h
  cases e with
  | pressConnect host user pass outcome =>
    by_cases hb : s.widgets.connect_button = false
    · have hstep : tsStep s (.pressConnect host user pass outcome)
          = (s, []) := by
        simp [tsStep, hb]
      rw [hstep]
      exact ⟨h1, h2⟩
    · have hcb : s.widgets.connect_button = true := by
        revert hb; cases s.widgets.connect_button <;> simp
      obtain ⟨hs0, hd0⟩ := h2 hcb
      by_cases hemp : host = "" ∨ user = "" ∨ pass = ""
      · have hstep : tsStep s (.pressConnect host user pass outcome)
            = ({ s with widgets :=
                  { s.widgets with
                    dialogs := s.widgets.dialogs ++ ["Input Error"] } },
               []) := by
          simp [tsStep, hb, hemp]
        rw [hstep]
        exact ⟨h1, h2⟩
      · cases outcome with
        | ok r =>
          by_cases hsucc : strContainsSub (pyLower r) "successful" = true
          · simp [tsStep, hb, hemp, hsucc, TsInv]
          · simp [tsStep, hb, hemp, hsucc, TsInv, hs0, hd0]
        | exn e => simp [tsStep, hb, hemp, TsInv, handle_error, hs0, hd0]
  | pressDisconnect outcome =>
    by_cases hb : s.widgets.disconnect_button = false
    · have hstep : tsStep s (.pressDisconnect outcome) = (s, []) := by
        simp [tsStep, hb]
      rw [hstep]
      exact ⟨h1, h2⟩
    · have hcb : s.widgets.connect_button = false := by
        by_contra hc
        have hcb' : s.widgets.connect_button = true := by
          revert hc; cases s.widgets.connect_button <;> simp
        exact hb (h2 hcb').2
      cases outcome with
      | ok r => simp [tsStep, hb, TsInv]
      | exn e => simp [tsStep, hb, TsInv, handle_error, hcb]
  | pressSyncTime outcome =>
    by_cases hb : s.widgets.sync_time_button = false
    · have hstep : tsStep s (.pressSyncTime outcome) = (s, []) := by
        simp [tsStep, hb]
      rw [hstep]
      exact ⟨h1, h2⟩
    · have hsb : s.widgets.sync_time_button = true := by
        revert hb; cases s.widgets.sync_time_button <;> simp
      have hcomm := h1 hsb
      have hcb : s.widgets.connect_button = false := by
        by_contra hc
        have hcb' : s.widgets.connect_button = true := by
          revert hc; cases s.widgets.connect_button <;> simp
        exact hb (h2 hcb').1
      cases outcome with
      | ok r => simp [tsStep, hb, TsInv, hcomm, hcb]
      | exn e => simp [tsStep, hb, TsInv, handle_error, hcomm, hcb]

theorem tsRun_inv_aux (s : TsState) (h : TsInv s) (evs : List TsEvent) :
    TsInv (evs.foldl (fun s e => (tsStep s e).1) s) := by
  induction evs generalizing s with
  | nil => exact h
  | cons e t ih => exact ih _ (tsStep_preserves_inv s e h)

theorem tsInit_inv : TsInv tsInit := by
  constructor
  · intro hx
    simp [tsInit] at hx
  · intro _
    exact ⟨rfl, rfl⟩

theorem tsRun_inv (evs : List TsEvent) : TsInv (tsRun evs) :=
  tsRun_inv_aux tsInit tsInit_inv evs

/-- C5: clock synchronization happens only over an established SSH
connection.  In every reachable state, Sync Time enabled implies a live
communicator; a Sync Time press that performs the `set_time_utc` call can
only happen with a live communicator (so `set_time_utc` is never invoked
while `shake_communicator` is `None`); a disabled Sync Time button does
nothing; the only event that turns Sync Time from disabled to enabled is
a connect attempt whose result contains "successful" case-insensitively;
a disconnect press disables it again whatever its outcome; and pressing
Sync Time when enabled calls `set_time_utc` exactly once and reports
"Error" status exactly when the result string contains "Error". -/
theorem sync_time_gated (evs : List TsEvent) (s : TsState) (e' : TsEvent)
    (r : String) (outcome : PyResult String) :
    ((tsRun evs).widgets.sync_time_button = true →
      (tsRun evs).communicator ≠ none) ∧
    ((tsStep (tsRun evs) (.pressSyncTime outcome)).2 ≠ [] →
      (tsRun evs).communicator ≠ none) ∧
    ((tsRun evs).widgets.sync_time_button = false →
      tsStep (tsRun evs) (.pressSyncTime outcome) = (tsRun evs, [])) ∧
    (s.widgets.sync_time_button = false →
      (tsStep s e').1.widgets.sync_time_button = true →
      ∃ host user pass r', e' = .pressConnect host user pass (.ok r') ∧
        strContainsSub (pyLower r') "successful" = true) ∧
    (s.widgets.disconnect_button = true →
      (tsStep s (.pressDisconnect outcome)).1.widgets.sync_time_button
        = false) ∧
    (s.widgets.sync_time_button = true →
      (tsStep s (.pressSyncTime (.ok r))).2 = [.setTimeUtc] ∧
      ((tsStep s (.pressSyncTime (.ok r))).1.widgets.ts_status
          = ("Error", "red") ↔ strContainsSub r "Error" = true)) := by
  refine ⟨(tsRun_inv evs).1, ?_, ?_, ?_, ?_, ?_⟩
  · intro hne
    by_cases hs : (tsRun evs).widgets.sync_time_button = false
    · have hstep : tsStep (tsRun evs) (.pressSyncTime outcome)
          = (tsRun evs, []) := by
        simp [tsStep, hs]
      rw [hstep] at hne
      exact absurd rfl hne
    · have hs' : (tsRun evs).widgets.sync_time_button = true := by
        revert hs
        cases (tsRun evs).widgets.sync_time_button <;> simp
      exact (tsRun_inv evs).1 hs'
  · intro h0
    simp [tsStep, h0]
  · intro h0 hflip
    cases e' with
    | pressConnect host user pass oc =>
      by_cases hb : s.widgets.connect_button = false
      · rw [show tsStep s (.pressConnect host user pass oc) = (s, []) by
          simp [tsStep, hb]] at hflip
        exact absurd hflip (by simp [h0])
      · by_cases hemp : host = "" ∨ user = "" ∨ pass = ""
        · simp [tsStep, hb, hemp] at hflip
          exact absurd hflip (by simp [h0])
        · cases oc with
          | ok r' =>
            by_cases hsucc : strContainsSub (pyLower r') "successful" = true
            · exact ⟨host, user, pass, r', rfl, hsucc⟩
            · simp [tsStep, hb, hemp, hsucc] at hflip
              exact absurd hflip (by simp [h0])
          | exn e =>
            simp [tsStep, hb, hemp, handle_error] at hflip
            exact absurd hflip (by simp [h0])
    | pressDisconnect oc =>
      by_cases hb : s.widgets.disconnect_button = false
      · rw [show tsStep s (.pressDisconnect oc) = (s, []) by
          simp [tsStep, hb]] at hflip
        exact absurd hflip (by simp [h0])
      · cases oc with
        | ok r' => simp [tsStep, hb] at hflip
        | exn e => simp [tsStep, hb, handle_error] at hflip
    | pressSyncTime oc =>
      rw [show tsStep s (.pressSyncTime oc) = (s, []) by
        simp [tsStep, h0]] at hflip
      exact absurd hflip (by simp [h0])
  · intro hd
    have hb : ¬s.widgets.disconnect_button = false := by simp [hd]
    cases outcome with
    | ok r' => simp [tsStep, hb]
    | exn e => simp [tsStep, hb, handle_error]
  · intro hs
    have hb : ¬s.widgets.sync_time_button = false := by simp [hs]
    refine ⟨by simp [tsStep, hb], ?_⟩
    by_cases hc : strContainsSub r "Error" = true
    · simp [tsStep, hb, hc]
    · simp [tsStep, hb, hc]

theorem sync_time_gated_witness :
    (tsRun [TsEvent.pressConnect "rs.local" "myshake" "pw"
        (.ok "Connection successful")]).communicator ≠ none ∧
    (tsStep (tsRun [TsEvent.pressConnect "rs.local" "myshake" "pw"
        (.ok "Connection successful")])
      (.pressSyncTime (.ok "Time set to UTC"))).2 = [.setTimeUtc] := by
  have h := sync_time_gated
    [TsEvent.pressConnect "rs.local" "myshake" "pw"
      (.ok "Connection successful")]
    (tsRun [TsEvent.pressConnect "rs.local" "myshake" "pw"
      (.ok "Connection successful")])
    (.pressSyncTime (.ok "x")) "Time set to UTC" (.ok "x")
  exact ⟨h.1 (by decide), (h.2.2.2.2.2 (by decide)).1⟩

/-! ## Single fetch, multifetch and stream writing (claims C6, C7, C9)

`UTCDateTime`'s very liberal string parser lives in obspy, so it enters
the model as an oracle argument; nothing below depends on which strings
it accepts.  Writes are recorded as `writeStream path format` actions —
the encoding itself happens inside obspy's `Stream.write`. -/

inductive UiAct : Type
  | setStream (st : ObsStream)
  | insertText (t : String)
  | setGetBtn (enabled : Bool)
  | saveDialog
  | writeStream (path fmt : String)
  | showError (t : String)
deriving DecidableEq

def UiAct.isWrite : UiAct → Bool
  | .writeStream _ _ => true
  | _ => false

/-- `ShakeFetchApp.process_queue`: pop at most one queued callback
(`get_nowait`, `queue.Empty` swallowed), and in the `finally` always
re-arm the 100 ms timer.  Result: (executed callback, remaining queue,
rescheduled). -/
def process_queue (q : List QueueMsg) : Option QueueMsg × List QueueMsg × Bool :=
  match q with
  | [] => (none, [], true)
  | m :: t => (some m, t, true)

/-- State of the Single Fetch tab touched by `run_get_waveforms`. -/
structure DaState : Type where
  /-- `self.stream`. -/
  stream : Option ObsStream
  get_waveforms_button : Bool
  /-- Chunks of `da_output_text` (cleared on success). -/
  output : List String
  dialogs : List String
deriving DecidableEq

/-- `ShakeFetchApp.run_get_waveforms`: build the params dict — `int()` on
the port, the `UTCDateTime` oracle on the two time strings — then disable
the button, reset the output and hand the params to the worker; any
parse exception instead shows an error dialog and re-enables the button,
leaving `self.stream` untouched. -/
def run_get_waveforms (utcParse : String → Option DT)
    (host port net sta loc cha startStr endStr : String)
    (s : DaState) : DaState × Option FetchParams :=
  match pyInt? port, utcParse startStr, utcParse endStr with
  | some pn, some dts, some dte =>
    ({ s with get_waveforms_button := false,
              output :=
                ["Connecting to " ++ host ++ ":" ++ toString pn ++ "...\n"] },
     some { host := host, port := pn, net := net, sta := sta, loc := loc,
            cha := cha, start_time := dts, end_time := dte })
  | _, _, _ =>
    ({ s with dialogs := s.dialogs ++ ["Error"],
              get_waveforms_button := true },
     none)

/-- `ShakeFetchApp.finish_get_waveforms` as its ordered action trace:
store the stream, print the two lines, re-enable the button, open the
save dialog, and — when a file was chosen — call `stream.write(file,
format="MSEED")`, reporting success or the caught failure. -/
def finish_get_waveforms (st : ObsStream) (chosenFile : Option String)
    (writeOk : Bool) : List UiAct :=
  [.setStream st, .insertText "Waveforms fetched successfully.\n",
   .insertText (st.display ++ "\n"), .setGetBtn true, .saveDialog] ++
    match chosenFile with
    | some f =>
      .writeStream f "MSEED" ::
        (if writeOk then [.insertText ("Stream saved to " ++ f ++ "\n")]
         else [.showError "File Save Error"])
    | none => []

/-- `os.path.join` on the POSIX paths the app builds. -/
def pathJoin (a b : String) : String := a ++ "/" ++ b

/-- The multifetch filename
`f"{project_name}_{station_num}_{st}_to_{et}.mseed"` with both times
rendered by `strftime('%Y%m%dT%H%M%S')`. -/
def mfFilename (project_name : String) (n : Nat) (p : FetchParams) :
    String :=
  project_name ++ "_" ++ toString n ++ "_" ++ fmtCompactDT p.start_time ++
    "_to_" ++ fmtCompactDT p.end_time ++ ".mseed"

/-- The `for params in all_params` loop of `multifetch_worker`: per
station print the header, fetch, and on success write
`stream.write(output_file, format="MSEED")`; any exception while
fetching or saving appends that station's error message and the loop
moves on.  Result: (remote calls, write actions, queued callbacks). -/
def mfFetchLoop (fetchO : FetchParams → PyResult ObsStream)
    (writeO : String → PyResult Unit) (project_name project_path : String) :
    List (FetchParams × Nat) → List RemoteOp × List UiAct × List QueueMsg
  | [] => ([], [], [])
  | (p, n) :: rest =>
    let tail := mfFetchLoop fetchO writeO project_name project_path rest
    let header : QueueMsg :=
      .updateMfOutput ("\n--- Fetching Station " ++ toString n ++ " ---\n")
    match fetchO p with
    | .ok stream =>
      let okmsg : QueueMsg :=
        .updateMfOutput ("  Successfully fetched " ++
          toString stream.ntraces ++ " traces.\n")
      let filename := mfFilename project_name n p
      let output_file := pathJoin project_path filename
      match writeO output_file with
      | .ok _ =>
        (.fetchWaveforms p :: tail.1,
         .writeStream output_file "MSEED" :: tail.2.1,
         header :: okmsg ::
           .updateMfOutput ("  Saved stream to " ++ filename ++ "\n") ::
             tail.2.2)
      | .exn e =>
        (.fetchWaveforms p :: tail.1,
         .writeStream output_file "MSEED" :: tail.2.1,
         header :: okmsg ::
           .updateMfOutput ("  Error for station " ++ toString n ++ ": " ++
             e ++ "\n") :: tail.2.2)
    | .exn e =>
      (.fetchWaveforms p :: tail.1,
       tail.2.1,
       header ::
         .updateMfOutput ("  Error for station " ++ toString n ++ ": " ++
           e ++ "\n") :: tail.2.2)

/-- `ShakeFetchApp.multifetch_worker`: bail out (with only an output
message) when the project directory does not exist, error out if the
project subdirectory cannot be created, otherwise run the per-station
loop and finally enqueue the completion callback once. -/
def multifetch_worker (fetchO : FetchParams → PyResult ObsStream)
    (writeO : String → PyResult Unit) (dirExists mkdirOk : Bool)
    (project_name project_dir : String)
    (all_params : List (FetchParams × Nat)) :
    List RemoteOp × List UiAct × List QueueMsg :=
  if dirExists = false then
    ([], [],
     [.updateMfOutput
        "Project directory not found. Please select a valid directory.\n"])
  else if mkdirOk = false then
    ([], [], [.handleErr "Directory Error" "Could not create project directory"])
  else
    let project_path := pathJoin project_dir project_name
    let r := mfFetchLoop fetchO writeO project_name project_path all_params
    (r.1, r.2.1,
     r.2.2 ++ [.finishMultifetch "\n--- Multifetch complete! ---\n"])

/-- `ShakeFetchApp.finish_multifetch`: print the text and re-enable the
Fetch All button. -/
def finish_multifetch (w : Widgets) : Widgets :=
  { w with mf_fetch_all_button := true }

/-- The `station_num := i + 1` numbering attached by `run_multifetch`. -/
def buildAllParams (base : FetchParams) (windows : List (DT × DT)) :
    List (FetchParams × Nat) :=
  windows.enum.map fun q =>
    ({ base with start_time := q.2.1, end_time := q.2.2 }, q.1 + 1)

def QueueMsg.isFinishMultifetch : QueueMsg → Bool
  | .finishMultifetch _ => true
  | _ => false

theorem mfFetchLoop_calls (fO : FetchParams → PyResult ObsStream)
    (wO : String → PyResult Unit) (pn pp : String)
    (ps : List (FetchParams × Nat)) :
    (mfFetchLoop fO wO pn pp ps).1
      = ps.map (fun q => RemoteOp.fetchWaveforms q.1) := by
  induction ps with
  | nil => rfl
  | cons hd t ih =>
    obtain ⟨p, n⟩ := hd
    cases hf : fO p with
    | ok stream =>
      cases hw : wO (pathJoin pp (mfFilename pn n p)) with
      | ok u => simp [mfFetchLoop, hf, hw, ih]
      | exn e => simp [mfFetchLoop, hf, hw, ih]
    | exn e => simp [mfFetchLoop, hf, ih]

theorem mfFetchLoop_no_finish (fO : FetchParams → PyResult ObsStream)
    (wO : String → PyResult Unit) (pn pp : String)
    (ps : List (FetchParams × Nat)) :
    (mfFetchLoop fO wO pn pp ps).2.2.filter QueueMsg.isFinishMultifetch
      = [] := by
  induction ps with
  | nil => rfl
  | cons hd t ih =>
    obtain ⟨p, n⟩ := hd
    cases hf : fO p with
    | ok stream =>
      cases hw : wO (pathJoin pp (mfFilename pn n p)) with
      | ok u => simp [mfFetchLoop, hf, hw, ih, QueueMsg.isFinishMultifetch]
      | exn e => simp [mfFetchLoop, hf, hw, ih, QueueMsg.isFinishMultifetch]
    | exn e => simp [mfFetchLoop, hf, ih, QueueMsg.isFinishMultifetch]

theorem mfFetchLoop_err_mem (fO : FetchParams → PyResult ObsStream)
    (wO : String → PyResult Unit) (pn pp : String)
    (ps : List (FetchParams × Nat)) (p : FetchParams) (n : Nat) (e : String)
    (hmem : (p, n) ∈ ps) (he : fO p = .exn e) :
    QueueMsg.updateMfOutput
        ("  Error for station " ++ toString n ++ ": " ++ e ++ "\n")
      ∈ (mfFetchLoop fO wO pn pp ps).2.2 := by
  induction ps with
  | nil => cases hmem
  | cons hd t ih =>
    obtain ⟨p', n'⟩ := hd
    rcases List.mem_cons.mp hmem with hh | ht
    · injection hh with h1 h2
      subst h1
      subst h2
      simp [mfFetchLoop, he]
    · cases hf : fO p' with
      | ok stream =>
        cases hw : wO (pathJoin pp (mfFilename pn n' p')) with
        | ok u => simp [mfFetchLoop, hf, hw]; exact Or.inr (Or.inr (Or.inr (ih ht)))
        | exn e2 => simp [mfFetchLoop, hf, hw]; exact Or.inr (Or.inr (Or.inr (ih ht)))
      | exn e2 => simp [mfFetchLoop, hf]; exact Or.inr (Or.inr (ih ht))

theorem mfFetchLoop_write_err_mem (fO : FetchParams → PyResult ObsStream)
    (wO : String → PyResult Unit) (pn pp : String)
    (ps : List (FetchParams × Nat)) (p : FetchParams) (n : Nat) (e : String)
    (stream : ObsStream) (hmem : (p, n) ∈ ps) (hf : fO p = .ok stream)
    (hw : wO (pathJoin pp (mfFilename pn n p)) = .exn e) :
    QueueMsg.updateMfOutput
        ("  Error for station " ++ toString n ++ ": " ++ e ++ "\n")
      ∈ (mfFetchLoop fO wO pn pp ps).2.2 := by
  induction ps with
  | nil => cases hmem
  | cons hd t ih =>
    obtain ⟨p', n'⟩ := hd
    rcases List.mem_cons.mp hmem with hh | ht
    · injection hh with h1 h2
      subst h1
      subst h2
      simp [mfFetchLoop, hf, hw]
    · cases hfh : fO p' with
      | ok st2 =>
        cases hwh : wO (pathJoin pp (mfFilename pn n' p')) with
        | ok u =>
          simp only [mfFetchLoop, hfh, hwh, List.mem_cons]
          exact Or.inr (Or.inr (Or.inr (ih ht)))
        | exn e2 =>
          simp only [mfFetchLoop, hfh, hwh, List.mem_cons]
          exact Or.inr (Or.inr (Or.inr (ih ht)))
      | exn e2 =>
        simp only [mfFetchLoop, hfh, List.mem_cons]
        exact Or.inr (Or.inr (ih ht))

theorem mfFetchLoop_writes (fO : FetchParams → PyResult ObsStream)
    (wO : String → PyResult Unit) (pn pp : String)
    (ps : List (FetchParams × Nat)) :
    ∀ a ∈ (mfFetchLoop fO wO pn pp ps).2.1, ∃ q, q ∈ ps ∧
      a = UiAct.writeStream (pathJoin pp (mfFilename pn q.2 q.1)) "MSEED" := by
  induction ps with
  | nil => intro a ha; cases ha
  | cons hd t ih =>
    obtain ⟨p, n⟩ := hd
    intro a ha
    cases hf : fO p with
    | ok stream =>
      have h21 : (mfFetchLoop fO wO pn pp ((p, n) :: t)).2.1
          = UiAct.writeStream (pathJoin pp (mfFilename pn n p)) "MSEED" ::
              (mfFetchLoop fO wO pn pp t).2.1 := by
        cases hw : wO (pathJoin pp (mfFilename pn n p)) with
        | ok u => simp [mfFetchLoop, hf, hw]
        | exn e => simp [mfFetchLoop, hf, hw]
      rw [h21] at ha
      rcases List.mem_cons.mp ha with hh | ht
      · exact ⟨(p, n), List.mem_cons_self _ _, hh⟩
      · obtain ⟨q, hq, he⟩ := ih a ht
        exact ⟨q, List.mem_cons_of_mem _ hq, he⟩
    | exn e =>
      have h21 : (mfFetchLoop fO wO pn pp ((p, n) :: t)).2.1
          = (mfFetchLoop fO wO pn pp t).2.1 := by
        simp [mfFetchLoop, hf]
      rw [h21] at ha
      obtain ⟨q, hq, he⟩ := ih a ha
      exact ⟨q, List.mem_cons_of_mem _ hq, he⟩

/-- C9: multifetch isolates per-station failures.  With the project
directory present and the subdirectory created, the worker fetches every
station in the given order; a station whose fetch raises — or whose
`stream.write` save raises — contributes its own error message while the
remaining stations are still attempted; the
completion callback is enqueued exactly once, as the last message,
however many stations failed, and it re-enables the Fetch All button;
`run_multifetch` numbers the stations 1..N; and when the project
directory does not exist the worker returns early and the completion
callback is never enqueued. -/
theorem multifetch_isolates_failures (fO : FetchParams → PyResult ObsStream)
    (wO : String → PyResult Unit) (mk : Bool) (pn pd : String)
    (ps : List (FetchParams × Nat)) (p : FetchParams) (n : Nat) (e : String)
    (base : FetchParams) (windows : List (DT × DT)) (st : ObsStream) :
    ((multifetch_worker fO wO true true pn pd ps).1
      = ps.map (fun q => RemoteOp.fetchWaveforms q.1)) ∧
    (((multifetch_worker fO wO true true pn pd ps).2.2.filter
        QueueMsg.isFinishMultifetch).length = 1) ∧
    ((multifetch_worker fO wO true true pn pd ps).2.2.getLast?
      = some (.finishMultifetch "\n--- Multifetch complete! ---\n")) ∧
    ((p, n) ∈ ps → fO p = .exn e →
      QueueMsg.updateMfOutput
          ("  Error for station " ++ toString n ++ ": " ++ e ++ "\n")
        ∈ (multifetch_worker fO wO true true pn pd ps).2.2) ∧
    ((p, n) ∈ ps → fO p = .ok st →
      wO (pathJoin (pathJoin pd pn) (mfFilename pn n p)) = .exn e →
      QueueMsg.updateMfOutput
          ("  Error for station " ++ toString n ++ ": " ++ e ++ "\n")
        ∈ (multifetch_worker fO wO true true pn pd ps).2.2) ∧
    (∀ w, (finish_multifetch w).mf_fetch_all_button = true) ∧
    ((buildAllParams base windows).map Prod.snd
      = (List.range windows.length).map (· + 1)) ∧
    ((multifetch_worker fO wO false mk pn pd ps).1 = [] ∧
     ((multifetch_worker fO wO false mk pn pd ps).2.2.filter
        QueueMsg.isFinishMultifetch).length = 0) := by
  refine ⟨?_, ?_, ?_, ?_, ?_, ?_, ?_, ?_, ?_⟩
  · simp [multifetch_worker, mfFetchLoop_calls]
  · simp [multifetch_worker, List.filter_append, mfFetchLoop_no_finish,
      QueueMsg.isFinishMultifetch]
  · simp [multifetch_worker]
  · intro hmem he
    simp only [multifetch_worker, if_neg (by simp : ¬(true = false))]
    exact List.mem_append_left _
      (mfFetchLoop_err_mem fO wO pn (pathJoin pd pn) ps p n e hmem he)
  · intro hmem hf hw
    simp only [multifetch_worker, if_neg (by simp : ¬(true = false))]
    exact List.mem_append_left _
      (mfFetchLoop_write_err_mem fO wO pn (pathJoin pd pn) ps p n e st
        hmem hf hw)
  · intro w
    rfl
  · have h1 : (buildAllParams base windows).map Prod.snd
        = windows.enum.map (fun q => q.1 + 1) := by
      simp [buildAllParams]
    have h2 : windows.enum.map (fun q : Nat × (DT × DT) => q.1 + 1)
        = (windows.enum.map Prod.fst).map (· + 1) := by
      rw [List.map_map]
      rfl
    rw [h1, h2, List.enum_map_fst]
  · simp [multifetch_worker]
  · simp [multifetch_worker, QueueMsg.isFinishMultifetch]

def sampleFetchO : FetchParams → PyResult ObsStream :=
  fun p => if p.port = 0 then .exn "boom" else .ok sampleStream

def sampleWriteO : String → PyResult Unit := fun _ => .ok ()

def sampleWriteFailO : String → PyResult Unit := fun _ => .exn "disk full"

def sampleBadParams : FetchParams := { sampleParams with port := 0 }

theorem multifetch_isolates_failures_witness :
    ((multifetch_worker sampleFetchO sampleWriteO true true "proj" "/data"
        [(sampleBadParams, 1), (sampleParams, 2)]).1
      = [.fetchWaveforms sampleBadParams, .fetchWaveforms sampleParams]) ∧
    QueueMsg.updateMfOutput "  Error for station 1: boom\n"
      ∈ (multifetch_worker sampleFetchO sampleWriteO true true "proj" "/data"
          [(sampleBadParams, 1), (sampleParams, 2)]).2.2 ∧
    QueueMsg.updateMfOutput "  Error for station 2: disk full\n"
      ∈ (multifetch_worker sampleFetchO sampleWriteFailO true true "proj"
          "/data" [(sampleBadParams, 1), (sampleParams, 2)]).2.2 := by
  have h := multifetch_isolates_failures sampleFetchO sampleWriteO true
    "proj" "/data" [(sampleBadParams, 1), (sampleParams, 2)]
    sampleBadParams 1 "boom" sampleParams [] sampleStream
  have h2 := multifetch_isolates_failures sampleFetchO sampleWriteFailO true
    "proj" "/data" [(sampleBadParams, 1), (sampleParams, 2)]
    sampleParams 2 "disk full" sampleParams [] sampleStream
  exact ⟨h.1, h.2.2.2.1 (by decide) (by decide),
    h2.2.2.2.2.1 (by decide) (by decide) (by decide)⟩

/-- C6: waveform writing is delegated to obspy.  Every stream the
application saves goes through the stream's `write` method with format
"MSEED" — the single fetch writes exactly the user-chosen file (and
nothing when the dialog is cancelled), and every multifetch write targets
`project_dir/project_name/` with filename
`{project_name}_{station_num}_{start}_to_{end}.mseed`, the two times
rendered by `strftime('%Y%m%dT%H%M%S')`.  No other write action exists in
either trace, and no MiniSEED encoding happens in the model beyond the
tagged external call. -/
theorem writes_are_mseed (stream : ObsStream) (f : String) (ok : Bool)
    (fO : FetchParams → PyResult ObsStream) (wO : String → PyResult Unit)
    (de mk : Bool) (pn pd : String) (ps : List (FetchParams × Nat))
    (q : FetchParams × Nat) :
    ((finish_get_waveforms stream (some f) ok).filter UiAct.isWrite
      = [.writeStream f "MSEED"]) ∧
    ((finish_get_waveforms stream none ok).filter UiAct.isWrite = []) ∧
    (∀ a ∈ (multifetch_worker fO wO de mk pn pd ps).2.1, ∃ q', q' ∈ ps ∧
      a = UiAct.writeStream
            (pathJoin (pathJoin pd pn) (mfFilename pn q'.2 q'.1)) "MSEED") ∧
    (mfFilename pn q.2 q.1
      = pn ++ "_" ++ toString q.2 ++ "_" ++ fmtCompactDT q.1.start_time ++
          "_to_" ++ fmtCompactDT q.1.end_time ++ ".mseed") := by
  refine ⟨?_, ?_, ?_, rfl⟩
  · cases ok <;> simp [finish_get_waveforms, UiAct.isWrite]
  · cases ok <;> simp [finish_get_waveforms, UiAct.isWrite]
  · intro a ha
    by_cases hde : de = false
    · rw [show (multifetch_worker fO wO de mk pn pd ps).2.1 = [] from by
        simp [multifetch_worker, hde]] at ha
      cases ha
    · by_cases hmk : mk = false
      · rw [show (multifetch_worker fO wO de mk pn pd ps).2.1 = [] from by
          simp [multifetch_worker, hde, hmk]] at ha
        cases ha
      · rw [show (multifetch_worker fO wO de mk pn pd ps).2.1
            = (mfFetchLoop fO wO pn (pathJoin pd pn) ps).2.1 from by
          simp [multifetch_worker, hde, hmk]] at ha
        exact mfFetchLoop_writes fO wO pn (pathJoin pd pn) ps a ha

theorem writes_are_mseed_witness :
    ((finish_get_waveforms sampleStream (some "/tmp/out.mseed") true).filter
        UiAct.isWrite = [.writeStream "/tmp/out.mseed" "MSEED"]) ∧
    mfFilename "proj" 2 sampleParams
      = "proj_2_20250314T150926_to_20250314T151026.mseed" := by
  have h := writes_are_mseed sampleStream "/tmp/out.mseed" true sampleFetchO
    sampleWriteO true true "proj" "/data" [(sampleParams, 2)]
    (sampleParams, 2)
  refine ⟨h.1, ?_⟩
  rw [h.2.2.2]
  decide

/-- C7: the single-fetch workflow is parse → disable → fetch once → hand
back through the queue → display.  A parse failure (port not an `int()`
integer or either time rejected by the `UTCDateTime` oracle) shows an
error dialog and leaves the stored stream and output untouched; on
success the Get Waveforms button is disabled and exactly the parsed
params reach the worker; the worker calls `fetch_waveforms` once and its
last enqueued callback is `finish_get_waveforms` with the stream;
`finish_get_waveforms` stores the stream, displays it and re-enables the
button strictly before opening the save dialog; and the queue processor
executes at most one queued callback per tick and always reschedules
itself. -/
theorem single_fetch_glue (utcParse : String → Option DT)
    (host port net sta loc cha startStr endStr : String) (s : DaState)
    (params : FetchParams) (stream : ObsStream) (chosen : Option String)
    (ok : Bool) (q : List QueueMsg) (m : QueueMsg) :
    ((pyInt? port = none ∨ utcParse startStr = none ∨
        utcParse endStr = none) →
      (run_get_waveforms utcParse host port net sta loc cha startStr endStr
          s).2 = none ∧
      (run_get_waveforms utcParse host port net sta loc cha startStr endStr
          s).1.stream = s.stream ∧
      (run_get_waveforms utcParse host port net sta loc cha startStr endStr
          s).1.output = s.output ∧
      (run_get_waveforms utcParse host port net sta loc cha startStr endStr
          s).1.dialogs = s.dialogs ++ ["Error"]) ∧
    (∀ pn dts dte, pyInt? port = some pn → utcParse startStr = some dts →
      utcParse endStr = some dte →
      (run_get_waveforms utcParse host port net sta loc cha startStr endStr
          s).1.get_waveforms_button = false ∧
      (run_get_waveforms utcParse host port net sta loc cha startStr endStr
          s).2 = some { host := host, port := pn, net := net, sta := sta,
                        loc := loc, cha := cha, start_time := dts,
                        end_time := dte }) ∧
    ((get_waveforms_worker params (.ok stream)).1
      = [.fetchWaveforms params]) ∧
    ((get_waveforms_worker params (.ok stream)).2.getLast?
      = some (.finishGetWaveforms stream)) ∧
    ((finish_get_waveforms stream chosen ok).take 5
      = [.setStream stream, .insertText "Waveforms fetched successfully.\n",
         .insertText (stream.display ++ "\n"), .setGetBtn true,
         .saveDialog]) ∧
    ((process_queue []).1 = none ∧ process_queue (m :: q) = (some m, q, true) ∧
      (process_queue q).2.2 = true) := by
  refine ⟨?_, ?_, rfl, rfl, ?_, rfl, rfl, ?_⟩
  · intro h
    cases hp : pyInt? port with
    | none => simp [run_get_waveforms, hp]
    | some pn =>
      cases hs : utcParse startStr with
      | none => simp [run_get_waveforms, hp, hs]
      | some d1 =>
        cases he : utcParse endStr with
        | none => simp [run_get_waveforms, hp, hs, he]
        | some d2 => simp_all
  · intro pn dts dte hp hs he
    simp [run_get_waveforms, hp, hs, he]
  · cases chosen <;> simp [finish_get_waveforms]
  · cases q <;> rfl

theorem single_fetch_glue_witness :
    (run_get_waveforms strptimeISO "rs.local" "16032" "AM" "R1E3F" "00"
        "EH*" "2025-03-14T15:09:26" "2025-03-14T15:10:26"
        ⟨none, true, [], []⟩).2
      = some sampleParams ∧
    (run_get_waveforms strptimeISO "rs.local" "16o32" "AM" "R1E3F" "00"
        "EH*" "2025-03-14T15:09:26" "2025-03-14T15:10:26"
        ⟨some sampleStream, true, [], []⟩).1.stream = some sampleStream := by
  have h1 := single_fetch_glue strptimeISO "rs.local" "16032" "AM" "R1E3F"
    "00" "EH*" "2025-03-14T15:09:26" "2025-03-14T15:10:26"
    ⟨none, true, [], []⟩ sampleParams sampleStream none true []
    (QueueMsg.updateDaOutput "x")
  have h2 := single_fetch_glue strptimeISO "rs.local" "16o32" "AM" "R1E3F"
    "00" "EH*" "2025-03-14T15:09:26" "2025-03-14T15:10:26"
    ⟨some sampleStream, true, [], []⟩ sampleParams sampleStream none true []
    (QueueMsg.updateDaOutput "x")
  refine ⟨?_, ((h2.1 (Or.inl (by decide))).2.1)⟩
  have := (h1.2.1 16032 sampleDT ⟨2025, 3, 14, 15, 10, 26⟩ (by decide)
    (by decide) (by decide)).2
  simpa [sampleParams, sampleDT] using this

/-! ## MHVSR analysis delegation (claim C4)

Floating-point conversion (`float(s)`) is CPython's; its result enters
the model as an opaque token produced by an oracle, because no claim
depends on float values — only on which settings fields are set, the
`'none'` test, and the delegation calls. -/

/-- Opaque result of a successful Python `float(s)`. -/
structure PyFloat : Type where
  lit : String
deriving DecidableEq

/-- The two fields of hvsrpy's preprocessing settings that
`mhvsr_worker` assigns (all other fields keep
`get_default_preprocessing_settings()` values inside the library). -/
structure PreprocessingSettings : Type where
  window_length_in_seconds : Int
  filter_corner_frequencies_in_hz : Option PyFloat × Option PyFloat
deriving DecidableEq

/-- The three fields of hvsrpy's processing settings that `mhvsr_worker`
assigns; `smoothing_bandwidth` is `processing_settings.smoothing['bandwidth']`. -/
structure ProcessingSettings : Type where
  window_type_and_width : String × PyFloat
  smoothing_bandwidth : Int
  method_to_combine_horizontals : String
deriving DecidableEq

inductive MhvsrCall : Type
  | processMhvsr (fnames : List (List String)) (pre : PreprocessingSettings)
      (proc : ProcessingSettings)
deriving DecidableEq

/-- Calls made by `on_mhvsr_complete` into hvsrpy on the returned
result object. -/
inductive SesameCall : Type
  | updatePeaks (h : HvsrResult)
  | reliability (windowlength : Int) (h : HvsrResult)
  | clarity (h : HvsrResult)
  | summarize (h : HvsrResult)
deriving DecidableEq

/-- `ShakeFetchApp.mhvsr_worker`: parse the GUI strings — window length
and bandwidth with `int()`, taper width with `float()`, the two filter
cuts with `float()` unless the string lower-cases to `'none'` (then
`None`) — assemble the settings, and call `process_mhvsr` once with the
selected files wrapped in a one-element list; any parse exception is
routed to `handle_error` and no call is made. -/
def mhvsr_worker (floatParse : String → Option PyFloat)
    (files : List String)
    (windowStr bandwidthStr combineStr lowStr highStr taperType
      taperWidthStr : String) (outcome : PyResult HvsrResult) :
    List MhvsrCall × List QueueMsg :=
  match pyInt? windowStr, pyInt? bandwidthStr, floatParse taperWidthStr,
    (if pyLower lowStr = "none" then some none
     else (floatParse lowStr).map some),
    (if pyLower highStr = "none" then some none
     else (floatParse highStr).map some) with
  | some wl, some bw, some tw, some lowCut, some highCut =>
    ([.processMhvsr [files]
        { window_length_in_seconds := wl,
          filter_corner_frequencies_in_hz := (lowCut, highCut) }
        { window_type_and_width := (taperType, tw),
          smoothing_bandwidth := bw,
          method_to_combine_horizontals := combineStr }],
     match outcome with
     | .ok h => [.onMhvsrComplete h]
     | .exn e => [.handleErr "MHVSR Error" e])
  | _, _, _, _, _ => ([], [.handleErr "MHVSR Error" "invalid parameter"])

/-- `ShakeFetchApp.on_mhvsr_complete`: the hvsrpy calls made on the
result, in source order. -/
def on_mhvsr_complete (wl : Int) (h : HvsrResult) : List SesameCall :=
  [.updatePeaks h, .reliability wl h, .clarity h, .summarize h]

/-- C4: the HVSR analysis is delegated entirely to hvsrpy.  When every
GUI string parses, `mhvsr_worker` makes exactly one external call —
`process_mhvsr` on the selected files wrapped in a one-element list with
the settings holding the parsed window length and bandwidth, the filter
cut being `None` exactly when its string lower-cases to `'none'`, taper
type and width as a pair and the combine method copied verbatim; the
result is handed back whole, and reliability and clarity scoring are
`hvsrpy.sesame` calls on that returned result. -/
theorem mhvsr_delegated (floatParse : String → Option PyFloat)
    (files : List String)
    (ws bs cs ls hstr tt tws : String) (outcome : PyResult HvsrResult)
    (wl bw : Int) (tw : PyFloat) (lowCut highCut : Option PyFloat)
    (h : HvsrResult)
    (hw : pyInt? ws = some wl) (hb : pyInt? bs = some bw)
    (ht : floatParse tws = some tw)
    (hl : (if pyLower ls = "none" then some none
           else (floatParse ls).map some) = some lowCut)
    (hh : (if pyLower hstr = "none" then some none
           else (floatParse hstr).map some) = some highCut) :
    ((mhvsr_worker floatParse files ws bs cs ls hstr tt tws outcome).1
      = [.processMhvsr [files]
          { window_length_in_seconds := wl,
            filter_corner_frequencies_in_hz := (lowCut, highCut) }
          { window_type_and_width := (tt, tw), smoothing_bandwidth := bw,
            method_to_combine_horizontals := cs }]) ∧
    (lowCut = none ↔ pyLower ls = "none") ∧
    (highCut = none ↔ pyLower hstr = "none") ∧
    ((mhvsr_worker floatParse files ws bs cs ls hstr tt tws (.ok h)).2
      = [.onMhvsrComplete h]) ∧
    (on_mhvsr_complete wl h
      = [.updatePeaks h, .reliability wl h, .clarity h, .summarize h]) := by
  refine ⟨?_, ?_, ?_, ?_, rfl⟩
  · simp [mhvsr_worker, hw, hb, ht, hl, hh]
  · by_cases hn : pyLower ls = "none"
    · rw [if_pos hn] at hl
      simp only [Option.some.injEq] at hl
      simp [hn, hl.symm]
    · rw [if_neg hn] at hl
      cases hfl : floatParse ls with
      | none => rw [hfl] at hl; cases hl
      | some v =>
        rw [hfl] at hl
        simp at hl
        subst hl
        simp [hn]
  · by_cases hn : pyLower hstr = "none"
    · rw [if_pos hn] at hh
      simp only [Option.some.injEq] at hh
      simp [hn, hh.symm]
    · rw [if_neg hn] at hh
      cases hfh : floatParse hstr with
      | none => rw [hfh] at hh; cases hh
      | some v =>
        rw [hfh] at hh
        simp at hh
        subst hh
        simp [hn]
  · simp [mhvsr_worker, hw, hb, ht, hl, hh]

theorem mhvsr_delegated_witness :
    (mhvsr_worker (fun s => some ⟨s⟩) ["a.mseed", "b.mseed"] "150" "40"
        "geometric_mean" "None" "3.5" "tukey" "0.2" (.ok ⟨7⟩)).1
      = [.processMhvsr [["a.mseed", "b.mseed"]]
          { window_length_in_seconds := 150,
            filter_corner_frequencies_in_hz := (none, some ⟨"3.5"⟩) }
          { window_type_and_width := ("tukey", ⟨"0.2"⟩),
            smoothing_bandwidth := 40,
            method_to_combine_horizontals := "geometric_mean" }] ∧
    (mhvsr_worker (fun s => some ⟨s⟩) ["a.mseed", "b.mseed"] "150" "40"
        "geometric_mean" "None" "3.5" "tukey" "0.2" (.ok ⟨7⟩)).2
      = [.onMhvsrComplete ⟨7⟩] := by
  have h := mhvsr_delegated (fun s => some ⟨s⟩) ["a.mseed", "b.mseed"]
    "150" "40" "geometric_mean" "None" "3.5" "tukey" "0.2" (.ok ⟨7⟩)
    150 40 ⟨"0.2"⟩ none (some ⟨"3.5"⟩) ⟨7⟩ (by decide) (by decide) rfl
    (by decide) (by decide)
  exact ⟨h.1, h.2.2.2.1⟩
